import Mathlib

/-!
Shallow embedding of the inventory/sales backend (src/backend/server.py)
and proofs of the specification claims about it.

Conventions of the embedding:
* MongoDB collections become Lean lists of records; `find_one` is
  `List.find?` on the id (first match), `update_one`/`delete_one` act on
  the first matching element, `insert_one` appends.
* Python `int` is `Int`, Python `float` prices are modelled as `Rat`
  (exact arithmetic stands in for IEEE floats; the claims under study are
  about which values are combined, not rounding).
* `HTTPException(status_code, detail)` becomes the `Err` structure.
* uuid generation and timestamps are environmental inputs: freshly
  generated ids are passed as explicit arguments, `created_at` fields are
  omitted (no claim mentions them), and wall-clock time is an explicit
  `Nat` (seconds) argument to the token functions.
* bcrypt hashing is environmental: `register`/`login` take the hash /
  verification functions as parameters.
* JWT encode/decode: a token is its payload `{sub, exp}`; signature
  checking (same fixed secret on both sides, always valid for tokens the
  server issued) is not modelled, expiry checking is: PyJWT treats a
  token as expired iff `exp ≤ now`.
-/

deriving instance DecidableEq for Except

namespace Inventory

/-- HTTP-level error: status code and detail string, mirroring
`HTTPException(status_code=..., detail=...)`. -/
structure Err where
  code : Nat
  detail : String
deriving DecidableEq, Repr

/-- `class UserRole(str, Enum)` from server.py. -/
inductive UserRole where
  | admin
  | user
deriving DecidableEq, Repr

/-- `class User(BaseModel)`: the identity view returned to callers
(no password field). -/
structure User where
  id : String
  username : String
  email : String
  role : UserRole
deriving DecidableEq, Repr

/-- `class UserCreate(BaseModel)`: registration request body. The
default `role: UserRole = UserRole.USER` is a schema default applied
before `register` runs; a request that supplies a role explicitly
arrives with that role in this field. -/
structure UserCreate where
  username : String
  email : String
  password : String
  role : UserRole
deriving DecidableEq, Repr

/-- `class UserLogin(BaseModel)`. -/
structure UserLogin where
  username : String
  password : String
deriving DecidableEq, Repr

/-- A document of the `users` collection: the `User` fields plus the
hashed password stored by `register`. -/
structure StoredUser where
  user : User
  password : String
deriving DecidableEq, Repr

/-- `class Vendor(BaseModel)`. -/
structure Vendor where
  id : String
  name : String
  address : String
  phone : String
deriving DecidableEq, Repr

/-- `class VendorCreate(BaseModel)`. -/
structure VendorCreate where
  name : String
  address : String
  phone : String
deriving DecidableEq, Repr

/-- `class Customer(BaseModel)`. -/
structure Customer where
  id : String
  name : String
  address : String
  phone : String
deriving DecidableEq, Repr

/-- `class CustomerCreate(BaseModel)`. -/
structure CustomerCreate where
  name : String
  address : String
  phone : String
deriving DecidableEq, Repr

/-- `class Product(BaseModel)`. -/
structure Product where
  id : String
  name : String
  vendor_id : String
  quantity : Int
  purchase_price : Rat
  selling_price : Rat
deriving DecidableEq, Repr

/-- `class ProductCreate(BaseModel)`. Note: `quantity: int` carries no
non-negativity constraint. -/
structure ProductCreate where
  name : String
  vendor_id : String
  quantity : Int
  purchase_price : Rat
  selling_price : Rat
deriving DecidableEq, Repr

/-- `class SaleItem(BaseModel)`. `quantity: int` carries no sign
constraint. -/
structure SaleItem where
  product_id : String
  product_name : String
  quantity : Int
  selling_price : Rat
  total_amount : Rat
deriving DecidableEq, Repr

/-- `class Sale(BaseModel)`. -/
structure Sale where
  id : String
  customer_id : String
  customer_name : String
  items : List SaleItem
  total_amount : Rat
deriving DecidableEq, Repr

/-- `class SaleCreate(BaseModel)`. -/
structure SaleCreate where
  customer_id : String
  items : List SaleItem
deriving DecidableEq, Repr

/-- `class CompanyDetails(BaseModel)`. -/
structure CompanyDetails where
  id : String
  name : String
  address : String
  phone : Option String
  email : Option String
  tax_number : Option String
deriving DecidableEq, Repr

/-- `class CompanyDetailsUpdate(BaseModel)`. -/
structure CompanyDetailsUpdate where
  name : String
  address : String
  phone : Option String
  email : Option String
  tax_number : Option String
deriving DecidableEq, Repr

/-- The whole database: one list per MongoDB collection used by
server.py. -/
structure Store where
  users : List StoredUser
  vendors : List Vendor
  customers : List Customer
  products : List Product
  sales : List Sale
  company : List CompanyDetails
deriving DecidableEq, Repr

/-! ### Collection primitives -/

/-- `db.products.find_one({"id": pid})`: first product with this id. -/
def findProduct (ps : List Product) (pid : String) : Option Product :=
  ps.find? (fun p => p.id == pid)

/-- `db.customers.find_one({"id": cid})`. -/
def findCustomer (cs : List Customer) (cid : String) : Option Customer :=
  cs.find? (fun c => c.id == cid)

/-- `db.users.find_one({"username": n})`. -/
def findUserByName (us : List StoredUser) (n : String) : Option StoredUser :=
  us.find? (fun u => u.user.username == n)

/-- `db.products.update_one({"id": pid}, {"$set": {"quantity": q}})`:
set the quantity of the first product whose id matches. -/
def setQuantity : List Product → String → Int → List Product
  | [], _, _ => []
  | p :: ps, pid, q =>
    if p.id == pid then { p with quantity := q } :: ps
    else p :: setQuantity ps pid q

/-- `delete_one({"id": i})` on a collection with an `id` field: remove
the first matching document. -/
def deleteFirst (f : α → Bool) : List α → List α
  | [] => []
  | x :: xs => if f x then xs else x :: deleteFirst f xs

/-! ### Authentication & authorization (server.py lines 142-217) -/

/-- PyJWT payload written by `create_access_token`: `{"sub": ..., "exp": ...}`.
`sub` is optional because `get_current_user` reads it with
`payload.get("sub")`. `exp` is in seconds. -/
structure TokenPayload where
  sub : Option String
  exp : Nat
deriving DecidableEq, Repr

/-- `ACCESS_TOKEN_EXPIRE_MINUTES = 30`. -/
def ACCESS_TOKEN_EXPIRE_MINUTES : Nat := 30

/-- `create_access_token(data, expires_delta=None)`: expiry is `now +
expires_delta` when supplied, else `now + 30 minutes`; the payload is
`data` plus the `exp` field.  Here `data` is always `{"sub": sub}`. -/
def create_access_token (now : Nat) (sub : String)
    (expires_delta : Option Nat := none) : TokenPayload :=
  match expires_delta with
  | some d => { sub := some sub, exp := now + d }
  | none => { sub := some sub, exp := now + ACCESS_TOKEN_EXPIRE_MINUTES * 60 }

/-- `jwt.decode(token, SECRET_KEY, ...)` as seen by `get_current_user`:
PyJWT raises `ExpiredSignatureError` (a `PyJWTError`) iff `exp ≤ now`;
otherwise the payload is returned. Signature verification always
succeeds for tokens this server issued (fixed shared secret). -/
def jwtDecode (now : Nat) (t : TokenPayload) : Option TokenPayload :=
  if t.exp ≤ now then none else some t

/-- `get_current_user(credentials)` (server.py lines 158-172): decode the
bearer token, read its subject, look the user up by username, and return
the identity view; any JWT failure maps to 401 "Invalid token". -/
def get_current_user (s : Store) (now : Nat) (t : TokenPayload) :
    Except Err User :=
  match jwtDecode now t with
  | none => .error ⟨401, "Invalid token"⟩
  | some payload =>
    match payload.sub with
    | none => .error ⟨401, "Invalid authentication credentials"⟩
    | some username =>
      match findUserByName s.users username with
      | none => .error ⟨401, "User not found"⟩
      | some su => .ok su.user

/-- `require_admin(current_user)` (server.py lines 174-177). -/
def require_admin (u : User) : Except Err User :=
  if u.role ≠ UserRole.admin then .error ⟨403, "Admin access required"⟩
  else .ok u

/-- `register(user_data)` (server.py lines 185-202): reject when a user
with the same username or email exists, otherwise store the identity
with the hashed password and return the view. `hash` is the bcrypt
`hash_password` collaborator; `newId` the generated uuid. -/
def register (hash : String → String) (s : Store) (newId : String)
    (d : UserCreate) : Store × Except Err User :=
  if s.users.any (fun u => u.user.username == d.username || u.user.email == d.email) then
    (s, .error ⟨400, "Username or email already exists"⟩)
  else
    let user : User := { id := newId, username := d.username,
                         email := d.email, role := d.role }
    ({ s with users := s.users ++ [{ user := user, password := hash d.password }] },
     .ok user)

/-- `login(login_data)` (server.py lines 204-213): look up by username,
verify the password with bcrypt (`check`), and on success issue a token
whose subject is the username, returning `{token, user}`. -/
def login (check : String → String → Bool) (s : Store) (now : Nat)
    (d : UserLogin) : Except Err (TokenPayload × User) :=
  match findUserByName s.users d.username with
  | none => .error ⟨401, "Invalid credentials"⟩
  | some su =>
    if check d.password su.password then
      .ok (create_access_token now su.user.username, su.user)
    else
      .error ⟨401, "Invalid credentials"⟩

/-! ### CRUD endpoints (the mutating ones; `current_user` is the already
authenticated identity resolved by `get_current_user`) -/

/-- `create_vendor` (server.py lines 220-224). -/
def create_vendor (s : Store) (_u : User) (newId : String) (d : VendorCreate) :
    Store × Except Err Vendor :=
  let v : Vendor := { id := newId, name := d.name, address := d.address,
                      phone := d.phone }
  ({ s with vendors := s.vendors ++ [v] }, .ok v)

/-- `update_vendor` (server.py lines 231-240): `replace_one` on the first
vendor with this id; 404 when no document matched. -/
def update_vendor (s : Store) (_u : User) (vid : String) (d : VendorCreate) :
    Store × Except Err Vendor :=
  let v : Vendor := { id := vid, name := d.name, address := d.address,
                      phone := d.phone }
  if s.vendors.any (fun w => w.id == vid) then
    ({ s with vendors := s.vendors.map (fun w => if w.id == vid then v else w) },
     .ok v)
  else (s, .error ⟨404, "Vendor not found"⟩)

/-- `delete_vendor` (server.py lines 242-247): admin gate, then
`delete_one`. -/
def delete_vendor (s : Store) (u : User) (vid : String) :
    Store × Except Err String :=
  match require_admin u with
  | .error e => (s, .error e)
  | .ok _ =>
    if s.vendors.any (fun w => w.id == vid) then
      ({ s with vendors := deleteFirst (fun w => w.id == vid) s.vendors },
       .ok "Vendor deleted successfully")
    else (s, .error ⟨404, "Vendor not found"⟩)

/-- `create_customer` (server.py lines 250-254). -/
def create_customer (s : Store) (_u : User) (newId : String) (d : CustomerCreate) :
    Store × Except Err Customer :=
  let c : Customer := { id := newId, name := d.name, address := d.address,
                        phone := d.phone }
  ({ s with customers := s.customers ++ [c] }, .ok c)

/-- `update_customer` (server.py lines 261-270). -/
def update_customer (s : Store) (_u : User) (cid : String) (d : CustomerCreate) :
    Store × Except Err Customer :=
  let c : Customer := { id := cid, name := d.name, address := d.address,
                        phone := d.phone }
  if s.customers.any (fun w => w.id == cid) then
    ({ s with customers := s.customers.map (fun w => if w.id == cid then c else w) },
     .ok c)
  else (s, .error ⟨404, "Customer not found"⟩)

/-- `delete_customer` (server.py lines 272-277). -/
def delete_customer (s : Store) (u : User) (cid : String) :
    Store × Except Err String :=
  match require_admin u with
  | .error e => (s, .error e)
  | .ok _ =>
    if s.customers.any (fun w => w.id == cid) then
      ({ s with customers := deleteFirst (fun w => w.id == cid) s.customers },
       .ok "Customer deleted successfully")
    else (s, .error ⟨404, "Customer not found"⟩)

/-- `create_product` (server.py lines 280-289): vendor must exist; the
caller-supplied quantity is stored unvalidated. -/
def create_product (s : Store) (_u : User) (newId : String) (d : ProductCreate) :
    Store × Except Err Product :=
  if s.vendors.any (fun w => w.id == d.vendor_id) then
    let p : Product := { id := newId, name := d.name, vendor_id := d.vendor_id,
                         quantity := d.quantity,
                         purchase_price := d.purchase_price,
                         selling_price := d.selling_price }
    ({ s with products := s.products ++ [p] }, .ok p)
  else (s, .error ⟨400, "Vendor not found"⟩)

/-- `update_product` (server.py lines 296-310). -/
def update_product (s : Store) (_u : User) (pid : String) (d : ProductCreate) :
    Store × Except Err Product :=
  if s.vendors.any (fun w => w.id == d.vendor_id) then
    let p : Product := { id := pid, name := d.name, vendor_id := d.vendor_id,
                         quantity := d.quantity,
                         purchase_price := d.purchase_price,
                         selling_price := d.selling_price }
    if s.products.any (fun w => w.id == pid) then
      ({ s with products := s.products.map (fun w => if w.id == pid then p else w) },
       .ok p)
    else (s, .error ⟨404, "Product not found"⟩)
  else (s, .error ⟨400, "Vendor not found"⟩)

/-- `delete_product` (server.py lines 312-317). -/
def delete_product (s : Store) (u : User) (pid : String) :
    Store × Except Err String :=
  match require_admin u with
  | .error e => (s, .error e)
  | .ok _ =>
    if s.products.any (fun w => w.id == pid) then
      ({ s with products := deleteFirst (fun w => w.id == pid) s.products },
       .ok "Product deleted successfully")
    else (s, .error ⟨404, "Product not found"⟩)

/-- `update_company_details` (server.py lines 434-445): admin gate, then
replace the (single) company document or insert one. -/
def update_company_details (s : Store) (u : User) (newId : String)
    (d : CompanyDetailsUpdate) : Store × Except Err CompanyDetails :=
  match require_admin u with
  | .error e => (s, .error e)
  | .ok _ =>
    match s.company with
    | [] =>
      let c : CompanyDetails := { id := newId, name := d.name,
                                  address := d.address, phone := d.phone,
                                  email := d.email, tax_number := d.tax_number }
      ({ s with company := [c] }, .ok c)
    | existing :: _ =>
      let c : CompanyDetails := { id := existing.id, name := d.name,
                                  address := d.address, phone := d.phone,
                                  email := d.email, tax_number := d.tax_number }
      ({ s with company := s.company.map (fun w => if w.id == existing.id then c else w) },
       .ok c)

/-! ### Sale transaction processor (server.py lines 320-355) -/

/-- The per-item loop of `create_sale` (lines 329-345): for each item in
order, resolve the product, check stock, write the deduction through
immediately, and accumulate the caller-supplied line total. On failure
the products list reflects every deduction already applied. -/
def applyItems : List Product → List SaleItem → Rat →
    List Product × Except Err Rat
  | ps, [], total => (ps, .ok total)
  | ps, item :: rest, total =>
    match findProduct ps item.product_id with
    | none => (ps, .error ⟨400, "Product " ++ item.product_id ++ " not found"⟩)
    | some p =>
      if p.quantity < item.quantity then
        (ps, .error ⟨400, "Insufficient stock for product " ++ p.name⟩)
      else
        applyItems (setQuantity ps item.product_id (p.quantity - item.quantity))
          rest (total + item.total_amount)

/-- `create_sale(sale_data)` (server.py lines 320-355): resolve the
customer, run the per-item validate-and-deduct loop, then build and
insert the Sale record. On a mid-loop failure the deductions already
applied remain in the store and no sale is inserted. -/
def create_sale (s : Store) (_u : User) (newId : String) (d : SaleCreate) :
    Store × Except Err Sale :=
  match findCustomer s.customers d.customer_id with
  | none => (s, .error ⟨400, "Customer not found"⟩)
  | some customer =>
    match applyItems s.products d.items 0 with
    | (ps, .error e) => ({ s with products := ps }, .error e)
    | (ps, .ok total) =>
      let sale : Sale := { id := newId, customer_id := d.customer_id,
                           customer_name := customer.name,
                           items := d.items, total_amount := total }
      ({ s with products := ps, sales := s.sales ++ [sale] }, .ok sale)

/-! ### Derived predicates used by the theorems -/

/-- All non-quantity fields of a product are unchanged. -/
def sameExceptQty (p p' : Product) : Prop :=
  p'.id = p.id ∧ p'.name = p.name ∧ p'.vendor_id = p.vendor_id ∧
  p'.purchase_price = p.purchase_price ∧ p'.selling_price = p.selling_price

/-- Frame relation between a products list before and after an operation
that may only touch the quantities of products whose id is in `pids`:
positionally, every product keeps all fields except possibly quantity,
and products whose id is outside `pids` are completely unchanged. -/
def FrameOK (pids : List String) (ps ps' : List Product) : Prop :=
  List.Forall₂ (fun p p' => sameExceptQty p p' ∧ (p.id ∉ pids → p' = p)) ps ps'

/-- The §3 Product invariant: every stored quantity is non-negative. -/
@[reducible]
def ProdNonneg (s : Store) : Prop :=
  ∀ p ∈ s.products, 0 ≤ p.quantity

/-! ### Concrete sample data shared by witnesses -/

def vendor1 : Vendor := { id := "v1", name := "Acme", address := "a", phone := "1" }

def customer1 : Customer := { id := "c1", name := "Carol", address := "b", phone := "2" }

def adminUser : User := { id := "u1", username := "root", email := "r@x", role := .admin }

def plainUser : User := { id := "u2", username := "bob", email := "b@x", role := .user }

def product1 : Product :=
  { id := "p1", name := "Widget", vendor_id := "v1", quantity := 10,
    purchase_price := 5, selling_price := 8 }

def product2 : Product :=
  { id := "p2", name := "Gadget", vendor_id := "v1", quantity := 3,
    purchase_price := 2, selling_price := 4 }

def baseStore : Store :=
  { users := [{ user := adminUser, password := "h" }],
    vendors := [vendor1], customers := [customer1],
    products := [product1, product2], sales := [], company := [] }

/-- A valid sale line for `product1`: 2 units at 8 with line total 16. -/
def item1 : SaleItem :=
  { product_id := "p1", product_name := "Widget", quantity := 2,
    selling_price := 8, total_amount := 16 }

/-- A line for `product2` requesting more than its stock of 3. -/
def bigItem : SaleItem :=
  { product_id := "p2", product_name := "Gadget", quantity := 99,
    selling_price := 4, total_amount := 396 }

/-- A line for `product1` with a negative requested quantity. -/
def negItem : SaleItem :=
  { product_id := "p1", product_name := "Widget", quantity := -5,
    selling_price := 8, total_amount := -40 }

/-- A line referencing a product id that is not in `baseStore`. -/
def ghostItem : SaleItem :=
  { product_id := "px", product_name := "Ghost", quantity := 1,
    selling_price := 1, total_amount := 1 }

end Inventory

namespace Inventory

/-! ### Lemmas about the collection primitives -/

theorem setQuantity_forall₂ (ps : List Product) (pid : String) (q : Int) :
    List.Forall₂ (fun p p' => p' = p ∨ (p' = { p with quantity := q } ∧ p.id = pid))
      ps (setQuantity ps pid q) := by
  induction ps with
  | nil => exact .nil
  | cons p ps ih =>
    simp only [setQuantity]
    split
    · rename_i hbeq
      exact .cons (Or.inr ⟨rfl, by simpa using hbeq⟩) (List.forall₂_same.2 (fun _ _ => Or.inl rfl))
    · exact .cons (Or.inl rfl) ih

theorem findProduct_setQuantity_ne {ps : List Product} {pid pid' : String}
    (h : pid' ≠ pid) (q : Int) :
    findProduct (setQuantity ps pid q) pid' = findProduct ps pid' := by
  induction ps with
  | nil => rfl
  | cons p ps ih =>
    simp only [setQuantity]
    by_cases hp : p.id = pid
    · simp only [hp, beq_self_eq_true, if_true]
      have h1 : ¬ (pid == pid') = true := by simpa using fun e => h e.symm
      simp [findProduct, List.find?, hp, h1, Ne.symm h]
    · have : (p.id == pid) = false := by simpa using hp
      simp only [this, Bool.false_eq_true, if_false]
      by_cases hq : p.id = pid'
      · simp [findProduct, List.find?, hq]
      · have h2 : (p.id == pid') = false := by simpa using hq
        simp only [findProduct, List.find?, h2]
        exact ih

theorem findProduct_setQuantity_self {ps : List Product} {pid : String} {p : Product}
    (h : findProduct ps pid = some p) (q : Int) :
    findProduct (setQuantity ps pid q) pid = some { p with quantity := q } := by
  induction ps with
  | nil => simp [findProduct] at h
  | cons a ps ih =>
    by_cases ha : a.id = pid
    · have hb : (a.id == pid) = true := by simpa using ha
      simp only [findProduct, List.find?, hb] at h
      cases h
      simp [setQuantity, hb, findProduct, List.find?, ha]
    · have hb : (a.id == pid) = false := by simpa using ha
      simp only [findProduct, List.find?, hb] at h
      simp only [setQuantity, hb, Bool.false_eq_true, if_false, findProduct, List.find?]
      exact ih h

theorem deleteFirst_subset {f : α → Bool} {xs : List α} {x : α}
    (h : x ∈ deleteFirst f xs) : x ∈ xs := by
  induction xs with
  | nil => simp [deleteFirst] at h
  | cons a xs ih =>
    simp only [deleteFirst] at h
    split at h
    · exact List.mem_cons_of_mem a h
    · rcases List.mem_cons.1 h with h | h
      · exact h ▸ List.mem_cons_self a xs
      · exact List.mem_cons_of_mem a (ih h)

/-! ### Lemmas about the per-item sale loop -/

theorem applyItems_nil (ps : List Product) (t : Rat) :
    applyItems ps [] t = (ps, .ok t) := rfl

theorem applyItems_append (ps : List Product) (l₁ l₂ : List SaleItem) (t : Rat) :
    applyItems ps (l₁ ++ l₂) t =
      match applyItems ps l₁ t with
      | (ps', .ok t') => applyItems ps' l₂ t'
      | (ps', .error e) => (ps', .error e) := by
  induction l₁ generalizing ps t with
  | nil => simp [applyItems]
  | cons item rest ih =>
    simp only [List.cons_append, applyItems]
    cases hf : findProduct ps item.product_id with
    | none => rfl
    | some p =>
      simp only
      split
      · rfl
      · exact ih _ _

theorem applyItems_error_code {ps : List Product} {items : List SaleItem} {t : Rat}
    {e : Err} (h : (applyItems ps items t).2 = .error e) : e.code = 400 := by
  induction items generalizing ps t with
  | nil => simp [applyItems] at h
  | cons item rest ih =>
    simp only [applyItems] at h
    cases hf : findProduct ps item.product_id with
    | none =>
      simp only [hf] at h
      cases h
      rfl
    | some p =>
      simp only [hf] at h
      split at h
      · cases h; rfl
      · exact ih h

theorem applyItems_nonneg {ps : List Product} {items : List SaleItem} {t : Rat}
    (h : ∀ p ∈ ps, 0 ≤ p.quantity) :
    ∀ p ∈ (applyItems ps items t).1, 0 ≤ p.quantity := by
  induction items generalizing ps t with
  | nil => simpa [applyItems] using h
  | cons item rest ih =>
    simp only [applyItems]
    cases hf : findProduct ps item.product_id with
    | none => simpa using h
    | some p =>
      simp only
      split
      · simpa using h
      · rename_i hq
        refine ih (fun x hx => ?_)
        have h2 := setQuantity_forall₂ ps item.product_id (p.quantity - item.quantity)
        rcases (List.forall₂_iff_get.1 h2) with ⟨hlen, hget⟩
        rcases List.mem_iff_get.1 hx with ⟨⟨i, hi⟩, rfl⟩
        have hi' : i < ps.length := by omega
        rcases hget i hi' hi with hcase | hcase
        · rw [hcase]; exact h _ (List.get_mem ps i hi')
        · rw [hcase.1]
          simp only
          omega

/-! ### Frame lemmas -/

theorem sameExceptQty_refl (p : Product) : sameExceptQty p p :=
  ⟨rfl, rfl, rfl, rfl, rfl⟩

theorem frameOK_refl (pids : List String) (ps : List Product) : FrameOK pids ps ps :=
  List.forall₂_same.2 (fun p _ => ⟨sameExceptQty_refl p, fun _ => rfl⟩)

theorem frameOK_trans {l₁ l₂ : List String} {ps ps₁ ps₂ : List Product}
    (h₁ : FrameOK l₁ ps ps₁) (h₂ : FrameOK l₂ ps₁ ps₂) :
    FrameOK (l₁ ++ l₂) ps ps₂ := by
  induction h₁ generalizing ps₂ with
  | nil => cases h₂; exact .nil
  | cons hab h ih =>
    rename_i a b ps psb
    cases h₂ with
    | cons hbc h₂ =>
      rename_i c psc
      refine .cons ⟨?_, ?_⟩ (ih h₂)
      · obtain ⟨⟨e1, e2, e3, e4, e5⟩, _⟩ := hab
        obtain ⟨⟨f1, f2, f3, f4, f5⟩, _⟩ := hbc
        exact ⟨f1.trans e1, f2.trans e2, f3.trans e3, f4.trans e4, f5.trans e5⟩
      · intro hmem
        simp only [List.mem_append, not_or] at hmem
        have hb : b = a := hab.2 hmem.1
        have hc : c = b := hbc.2 (by rw [hab.1.1]; exact hmem.2)
        rw [hc, hb]

theorem setQuantity_frameOK (ps : List Product) (pid : String) (q : Int) :
    FrameOK [pid] ps (setQuantity ps pid q) := by
  refine (setQuantity_forall₂ ps pid q).imp (fun p p' h => ?_)
  rcases h with rfl | ⟨rfl, hpid⟩
  · exact ⟨sameExceptQty_refl _, fun _ => rfl⟩
  · exact ⟨⟨rfl, rfl, rfl, rfl, rfl⟩, fun hmem => absurd (by simpa using hpid) hmem⟩

theorem applyItems_frameOK (items : List SaleItem) (ps : List Product) (t : Rat) :
    FrameOK (items.map (fun i => i.product_id)) ps (applyItems ps items t).1 := by
  induction items generalizing ps t with
  | nil => exact frameOK_refl _ ps
  | cons item rest ih =>
    simp only [applyItems, List.map_cons]
    cases hf : findProduct ps item.product_id with
    | none => exact frameOK_refl _ ps
    | some p =>
      simp only
      split
      · exact frameOK_refl _ ps
      · exact frameOK_trans (setQuantity_frameOK ps item.product_id _) (ih _ _)

theorem findProduct_frame {pids : List String} {ps ps' : List Product} {pid : String}
    (h : FrameOK pids ps ps') (hpid : pid ∉ pids) :
    findProduct ps' pid = findProduct ps pid := by
  induction h with
  | nil => rfl
  | cons hab h ih =>
    rename_i a b l l'
    by_cases ha : a.id = pid
    · have hb : b = a := hab.2 (ha ▸ hpid)
      have hbeq : (a.id == pid) = true := by simpa using ha
      have hbeq' : (b.id == pid) = true := by rw [hb]; exact hbeq
      simp [findProduct, List.find?, hbeq, hbeq', hb]
    · have hbid : b.id = a.id := hab.1.1
      have h1 : (a.id == pid) = false := by simpa using ha
      have h2 : (b.id == pid) = false := by simpa [hbid] using ha
      simp only [findProduct, List.find?, h1, h2]
      exact ih

/-! ### Success-path characterization of the item loop -/

theorem applyItems_ok_distinct {items : List SaleItem} {ps : List Product} {t : Rat}
    (hnd : (items.map (fun i => i.product_id)).Nodup)
    (hex : ∀ it ∈ items, ∃ p, findProduct ps it.product_id = some p ∧
      it.quantity ≤ p.quantity) :
    ∃ ps', applyItems ps items t =
        (ps', .ok (t + (items.map (fun i => i.total_amount)).sum)) ∧
      ∀ it ∈ items, ∀ p, findProduct ps it.product_id = some p →
        findProduct ps' it.product_id = some { p with quantity := p.quantity - it.quantity } := by
  induction items generalizing ps t with
  | nil => exact ⟨ps, by simp [applyItems], by simp⟩
  | cons item rest ih =>
    obtain ⟨p, hfp, hqty⟩ := hex item (List.mem_cons_self _ _)
    have hnotlt : ¬ p.quantity < item.quantity := not_lt.2 hqty
    have hnd' : (rest.map (fun i => i.product_id)).Nodup := (List.nodup_cons.1 hnd).2
    have hhead : item.product_id ∉ rest.map (fun i => i.product_id) :=
      (List.nodup_cons.1 hnd).1
    set ps₁ := setQuantity ps item.product_id (p.quantity - item.quantity) with hps₁
    have hex' : ∀ it ∈ rest, ∃ q, findProduct ps₁ it.product_id = some q ∧
        it.quantity ≤ q.quantity := by
      intro it hit
      obtain ⟨q, hfq, hq⟩ := hex it (List.mem_cons_of_mem _ hit)
      refine ⟨q, ?_, hq⟩
      have hne : it.product_id ≠ item.product_id := by
        intro he
        exact hhead (he ▸ List.mem_map_of_mem (fun i => i.product_id) hit)
      rw [hps₁, findProduct_setQuantity_ne hne]
      exact hfq
    obtain ⟨ps', hrun, hfind⟩ := ih hnd' hex' (t := t + item.total_amount)
    have hhead' : findProduct ps' item.product_id =
        some { p with quantity := p.quantity - item.quantity } := by
      have h1 : findProduct ps₁ item.product_id =
          some { p with quantity := p.quantity - item.quantity } :=
        findProduct_setQuantity_self hfp _
      have hframe := applyItems_frameOK rest ps₁ (t + item.total_amount)
      rw [hrun] at hframe
      exact (findProduct_frame hframe hhead).trans h1
    refine ⟨ps', ?_, ?_⟩
    · simp only [applyItems, hfp]
      rw [if_neg hnotlt, ← hps₁, hrun]
      simp [add_assoc]
    · intro it hit q hfq
      rcases List.mem_cons.1 hit with he | hit'
      · subst he
        have hq : p = q := by rw [hfp] at hfq; exact Option.some.inj hfq
        subst hq
        exact hhead'
      · have hne : it.product_id ≠ item.product_id := by
          intro he
          exact hhead (he ▸ List.mem_map_of_mem (fun i => i.product_id) hit')
        have hfq₁ : findProduct ps₁ it.product_id = some q := by
          rw [hps₁, findProduct_setQuantity_ne hne]; exact hfq
        exact hfind it hit' q hfq₁

/-! ### Small-step equations for the item loop and `create_sale` -/

theorem applyItems_cons_none {ps : List Product} {item : SaleItem}
    (rest : List SaleItem) (t : Rat)
    (h : findProduct ps item.product_id = none) :
    applyItems ps (item :: rest) t =
      (ps, .error ⟨400, "Product " ++ item.product_id ++ " not found"⟩) := by
  simp [applyItems, h]

theorem applyItems_cons_insufficient {ps : List Product} {item : SaleItem}
    {p : Product} (rest : List SaleItem) (t : Rat)
    (h : findProduct ps item.product_id = some p)
    (hlt : p.quantity < item.quantity) :
    applyItems ps (item :: rest) t =
      (ps, .error ⟨400, "Insufficient stock for product " ++ p.name⟩) := by
  simp [applyItems, h, hlt]

theorem applyItems_cons_ok {ps : List Product} {item : SaleItem}
    {p : Product} (rest : List SaleItem) (t : Rat)
    (h : findProduct ps item.product_id = some p)
    (hge : ¬ p.quantity < item.quantity) :
    applyItems ps (item :: rest) t =
      applyItems (setQuantity ps item.product_id (p.quantity - item.quantity))
        rest (t + item.total_amount) := by
  simp [applyItems, h, hge]

theorem create_sale_no_customer {s : Store} {d : SaleCreate} (u : User) (newId : String)
    (hcust : findCustomer s.customers d.customer_id = none) :
    create_sale s u newId d = (s, .error ⟨400, "Customer not found"⟩) := by
  simp [create_sale, hcust]

theorem create_sale_run_error {s : Store} {d : SaleCreate} {c : Customer}
    {ps' : List Product} {e : Err} (u : User) (newId : String)
    (hcust : findCustomer s.customers d.customer_id = some c)
    (hrun : applyItems s.products d.items 0 = (ps', .error e)) :
    create_sale s u newId d = ({ s with products := ps' }, .error e) := by
  simp [create_sale, hcust, hrun]

theorem create_sale_run_ok {s : Store} {d : SaleCreate} {c : Customer}
    {ps' : List Product} {t : Rat} (u : User) (newId : String)
    (hcust : findCustomer s.customers d.customer_id = some c)
    (hrun : applyItems s.products d.items 0 = (ps', .ok t)) :
    create_sale s u newId d =
      ({ s with
          products := ps',
          sales := s.sales ++
            [{ id := newId, customer_id := d.customer_id, customer_name := c.name,
               items := d.items, total_amount := t }] },
       .ok { id := newId, customer_id := d.customer_id, customer_name := c.name,
             items := d.items, total_amount := t }) := by
  simp [create_sale, hcust, hrun]

/-! ### The claims -/

/-- C1: PostSale is not atomic on failure. If the items split as
`pre ++ bad :: rest` with `pre` nonempty, every item of `pre` validates
and has its deduction written through (final product state `ps'` of the
prefix run), and `bad` then fails validation (missing product or
insufficient stock), then `create_sale` fails, the final store keeps
exactly the prefix deductions `ps'` with no compensating rollback, and
the sales collection is untouched (no sale record is created). -/
theorem claim_C1_postsale_not_atomic (s : Store) (u : User) (newId : String)
    (d : SaleCreate) (pre : List SaleItem) (bad : SaleItem) (rest : List SaleItem)
    (c : Customer) (ps' : List Product) (t : Rat)
    (hitems : d.items = pre ++ bad :: rest)
    (_hpre : pre ≠ [])
    (hcust : findCustomer s.customers d.customer_id = some c)
    (hrun : applyItems s.products pre 0 = (ps', .ok t))
    (hbad : findProduct ps' bad.product_id = none ∨
      ∃ p, findProduct ps' bad.product_id = some p ∧ p.quantity < bad.quantity) :
    ∃ e, create_sale s u newId d = ({ s with products := ps' }, .error e) := by
  rcases hbad with hnone | ⟨p, hfp, hlt⟩
  · refine ⟨⟨400, "Product " ++ bad.product_id ++ " not found"⟩,
      create_sale_run_error u newId hcust ?_⟩
    rw [hitems, applyItems_append, hrun]
    exact applyItems_cons_none rest t hnone
  · refine ⟨⟨400, "Insufficient stock for product " ++ p.name⟩,
      create_sale_run_error u newId hcust ?_⟩
    rw [hitems, applyItems_append, hrun]
    exact applyItems_cons_insufficient rest t hfp hlt

/-- Witness for C1: selling 2 Widgets (deducted: 10 → 8) and then 99
Gadgets (only 3 in stock) fails, leaves the Widget deduction in place,
and creates no sale. -/
theorem claim_C1_witness :
    ∃ e, create_sale baseStore adminUser "s1"
        { customer_id := "c1", items := [item1, bigItem] } =
      ({ baseStore with products := [{ product1 with quantity := 8 }, product2] },
       .error e) :=
  claim_C1_postsale_not_atomic baseStore adminUser "s1"
    { customer_id := "c1", items := [item1, bigItem] }
    [item1] bigItem [] customer1 [{ product1 with quantity := 8 }, product2]
    (0 + item1.total_amount)
    rfl (by decide) (by decide) rfl
    (Or.inr ⟨product2, by decide, by decide⟩)

/-- C3: a PostSale whose customer exists, whose items reference pairwise
distinct existing products, and whose requested quantities are all
within stock, succeeds: each referenced product's quantity drops by the
requested amount, the returned sale's total is the sum of the
caller-supplied line totals (not recomputed from stored prices), and
its items are exactly the input list in order. -/
theorem claim_C3_postsale_success (s : Store) (u : User) (newId : String)
    (d : SaleCreate) (c : Customer)
    (hcust : findCustomer s.customers d.customer_id = some c)
    (hnd : (d.items.map (fun i => i.product_id)).Nodup)
    (hex : ∀ it ∈ d.items, ∃ p, findProduct s.products it.product_id = some p ∧
      it.quantity ≤ p.quantity) :
    ∃ ps' sale,
      create_sale s u newId d =
        ({ s with products := ps', sales := s.sales ++ [sale] }, .ok sale) ∧
      sale.items = d.items ∧
      sale.total_amount = (d.items.map (fun i => i.total_amount)).sum ∧
      ∀ it ∈ d.items, ∀ p, findProduct s.products it.product_id = some p →
        findProduct ps' it.product_id =
          some { p with quantity := p.quantity - it.quantity } := by
  obtain ⟨ps', hrun, hfind⟩ := applyItems_ok_distinct hnd hex (t := 0)
  rw [zero_add] at hrun
  exact ⟨ps', _, create_sale_run_ok u newId hcust hrun, rfl, rfl, hfind⟩

/-- Witness for C3: selling 2 Widgets to Carol succeeds with total 16
and Widget stock 10 → 8. -/
theorem claim_C3_witness :
    ∃ ps' sale,
      create_sale baseStore adminUser "s1" { customer_id := "c1", items := [item1] } =
        ({ baseStore with products := ps', sales := baseStore.sales ++ [sale] },
         .ok sale) ∧
      sale.items = [item1] ∧
      sale.total_amount = ([item1].map (fun i => i.total_amount)).sum ∧
      ∀ it ∈ [item1], ∀ p, findProduct baseStore.products it.product_id = some p →
        findProduct ps' it.product_id =
          some { p with quantity := p.quantity - it.quantity } :=
  claim_C3_postsale_success baseStore adminUser "s1"
    { customer_id := "c1", items := [item1] } customer1
    (by decide) (by decide)
    (by
      intro it hit
      rw [List.mem_singleton] at hit
      subst hit
      exact ⟨product1, by decide, by decide⟩)

/-- C4: PostSale error taxonomy and ordering. A missing customer yields
400 "Customer not found"; otherwise the items are checked in the order
supplied, and the first failing item determines the error: a missing
product yields 400 naming that product id, insufficient stock yields
400 naming the product. -/
theorem claim_C4_postsale_errors (s : Store) (u : User) (newId : String)
    (d : SaleCreate) :
    (findCustomer s.customers d.customer_id = none →
      create_sale s u newId d = (s, .error ⟨400, "Customer not found"⟩)) ∧
    (∀ c pre it rest ps' t,
      findCustomer s.customers d.customer_id = some c →
      d.items = pre ++ it :: rest →
      applyItems s.products pre 0 = (ps', .ok t) →
      findProduct ps' it.product_id = none →
      create_sale s u newId d = ({ s with products := ps' },
        .error ⟨400, "Product " ++ it.product_id ++ " not found"⟩)) ∧
    (∀ c pre it rest ps' t p,
      findCustomer s.customers d.customer_id = some c →
      d.items = pre ++ it :: rest →
      applyItems s.products pre 0 = (ps', .ok t) →
      findProduct ps' it.product_id = some p →
      p.quantity < it.quantity →
      create_sale s u newId d = ({ s with products := ps' },
        .error ⟨400, "Insufficient stock for product " ++ p.name⟩)) := by
  refine ⟨fun hc => create_sale_no_customer u newId hc, ?_, ?_⟩
  · intro c pre it rest ps' t hc hitems hrun hnone
    apply create_sale_run_error u newId hc
    rw [hitems, applyItems_append, hrun]
    exact applyItems_cons_none rest t hnone
  · intro c pre it rest ps' t p hc hitems hrun hfp hlt
    apply create_sale_run_error u newId hc
    rw [hitems, applyItems_append, hrun]
    exact applyItems_cons_insufficient rest t hfp hlt

/-- Witness for C4: an unknown customer, an unknown product as first
item, and an oversized first item each produce the corresponding
error. -/
theorem claim_C4_witness :
    create_sale baseStore adminUser "s1" { customer_id := "zz", items := [] } =
      (baseStore, .error ⟨400, "Customer not found"⟩) ∧
    create_sale baseStore adminUser "s1" { customer_id := "c1", items := [ghostItem] } =
      ({ baseStore with products := baseStore.products },
       .error ⟨400, "Product px not found"⟩) ∧
    create_sale baseStore adminUser "s1" { customer_id := "c1", items := [bigItem] } =
      ({ baseStore with products := baseStore.products },
       .error ⟨400, "Insufficient stock for product Gadget"⟩) :=
  ⟨(claim_C4_postsale_errors baseStore adminUser "s1"
      { customer_id := "zz", items := [] }).1 (by decide),
   (claim_C4_postsale_errors baseStore adminUser "s1"
      { customer_id := "c1", items := [ghostItem] }).2.1 customer1 [] ghostItem []
      baseStore.products 0 (by decide) rfl rfl (by decide),
   (claim_C4_postsale_errors baseStore adminUser "s1"
      { customer_id := "c1", items := [bigItem] }).2.2 customer1 [] bigItem []
      baseStore.products 0 product2 (by decide) rfl rfl (by decide) (by decide)⟩

/-- C10: PostSale accepts negative requested quantities. For a product
with stored quantity `q ≥ 0` and a single-item sale requesting `n < 0`
units of it, the stock-sufficiency check passes, the call succeeds, and
the committed stored quantity `q - n` is strictly greater than `q`: a
sale can increase stock. -/
theorem claim_C10_negative_quantity_increases_stock (s : Store) (u : User)
    (newId cid : String) (it : SaleItem) (c : Customer) (p : Product)
    (hcust : findCustomer s.customers cid = some c)
    (hfp : findProduct s.products it.product_id = some p)
    (hq : 0 ≤ p.quantity) (hneg : it.quantity < 0) :
    ∃ sale,
      create_sale s u newId { customer_id := cid, items := [it] } =
        ({ s with
            products := setQuantity s.products it.product_id (p.quantity - it.quantity),
            sales := s.sales ++ [sale] }, .ok sale) ∧
      p.quantity < p.quantity - it.quantity ∧
      findProduct (setQuantity s.products it.product_id (p.quantity - it.quantity))
          it.product_id = some { p with quantity := p.quantity - it.quantity } := by
  have hge : ¬ p.quantity < it.quantity := by omega
  have hrun : applyItems s.products [it] 0 =
      (setQuantity s.products it.product_id (p.quantity - it.quantity),
       .ok (0 + it.total_amount)) := by
    rw [applyItems_cons_ok [] 0 hfp hge, applyItems_nil]
  exact ⟨_, create_sale_run_ok u newId hcust hrun, by omega,
    findProduct_setQuantity_self hfp _⟩

/-- C9: frame property of a successful PostSale. Only the quantity
fields of referenced products change and exactly one sale record is
appended; unreferenced products and non-quantity fields are unchanged,
as are the users, vendors, customers, and company collections. -/
theorem claim_C9_postsale_frame (s : Store) (u : User) (newId : String)
    (d : SaleCreate) (s' : Store) (sale : Sale)
    (h : create_sale s u newId d = (s', .ok sale)) :
    s'.users = s.users ∧ s'.vendors = s.vendors ∧ s'.customers = s.customers ∧
    s'.company = s.company ∧ s'.sales = s.sales ++ [sale] ∧
    FrameOK (d.items.map (fun i => i.product_id)) s.products s'.products := by
  unfold create_sale at h
  cases hc : findCustomer s.customers d.customer_id with
  | none => rw [hc] at h; simp at h
  | some c =>
    rw [hc] at h
    cases hrun : applyItems s.products d.items 0 with
    | mk ps r =>
      rw [hrun] at h
      cases r with
      | error e => simp at h
      | ok total =>
        simp only [Prod.mk.injEq, Except.ok.injEq] at h
        obtain ⟨hs', hsale⟩ := h
        subst hs'
        subst hsale
        refine ⟨rfl, rfl, rfl, rfl, rfl, ?_⟩
        have hframe := applyItems_frameOK d.items s.products 0
        rw [hrun] at hframe
        exact hframe

/-- Witness for C9: the concrete successful sale of 2 Widgets changes
only the Widget quantity and appends one sale. -/
theorem claim_C9_witness :
    ({ baseStore with
        products := [{ product1 with quantity := 8 }, product2],
        sales := [{ id := "s1", customer_id := "c1", customer_name := "Carol",
                    items := [item1],
                    total_amount := 0 + item1.total_amount }] } : Store).users
        = baseStore.users ∧
    ({ baseStore with
        products := [{ product1 with quantity := 8 }, product2],
        sales := [{ id := "s1", customer_id := "c1", customer_name := "Carol",
                    items := [item1],
                    total_amount := 0 + item1.total_amount }] } : Store).vendors
        = baseStore.vendors ∧
    ({ baseStore with
        products := [{ product1 with quantity := 8 }, product2],
        sales := [{ id := "s1", customer_id := "c1", customer_name := "Carol",
                    items := [item1],
                    total_amount := 0 + item1.total_amount }] } : Store).customers
        = baseStore.customers ∧
    ({ baseStore with
        products := [{ product1 with quantity := 8 }, product2],
        sales := [{ id := "s1", customer_id := "c1", customer_name := "Carol",
                    items := [item1],
                    total_amount := 0 + item1.total_amount }] } : Store).company
        = baseStore.company ∧
    ({ baseStore with
        products := [{ product1 with quantity := 8 }, product2],
        sales := [{ id := "s1", customer_id := "c1", customer_name := "Carol",
                    items := [item1],
                    total_amount := 0 + item1.total_amount }] } : Store).sales
        = baseStore.sales ++
          [{ id := "s1", customer_id := "c1", customer_name := "Carol",
             items := [item1], total_amount := 0 + item1.total_amount }] ∧
    FrameOK ([item1].map (fun i => i.product_id)) baseStore.products
      ({ baseStore with
          products := [{ product1 with quantity := 8 }, product2],
          sales := [{ id := "s1", customer_id := "c1", customer_name := "Carol",
                      items := [item1],
                      total_amount := 0 + item1.total_amount }] } : Store).products :=
  claim_C9_postsale_frame baseStore adminUser "s1"
    { customer_id := "c1", items := [item1] }
    { baseStore with
        products := [{ product1 with quantity := 8 }, product2],
        sales := [{ id := "s1", customer_id := "c1", customer_name := "Carol",
                    items := [item1],
                    total_amount := 0 + item1.total_amount }] }
    { id := "s1", customer_id := "c1", customer_name := "Carol",
      items := [item1], total_amount := 0 + item1.total_amount }
    rfl

/-- C2 counterexample: `create_product` performs no sign validation, so
a committed product creation can store a negative quantity, refuting
"quantity ≥ 0 after any committed operation" as stated. -/
theorem claim_C2_counterexample :
    (create_product baseStore adminUser "p3"
        { name := "Bad", vendor_id := "v1", quantity := -1,
          purchase_price := 1, selling_price := 1 }).2 =
      .ok { id := "p3", name := "Bad", vendor_id := "v1", quantity := -1,
            purchase_price := 1, selling_price := 1 } ∧
    ¬ ProdNonneg (create_product baseStore adminUser "p3"
        { name := "Bad", vendor_id := "v1", quantity := -1,
          purchase_price := 1, selling_price := 1 }).1 := by
  constructor
  · decide
  · intro hinv
    exact absurd
      (hinv { id := "p3", name := "Bad", vendor_id := "v1", quantity := -1,
              purchase_price := 1, selling_price := 1 } (by decide))
      (by decide)

/-- C2 amended: the quantity ≥ 0 invariant is preserved by every
operation of the system provided product creation and product update
requests carry a non-negative quantity; sale posting preserves it
unconditionally (also on its failure paths). Creation/update with a
negative quantity is the only way to break it. -/
theorem claim_C2_amended_nonneg_preserved (s : Store) (hs : ProdNonneg s) :
    (∀ hash newId d, ProdNonneg (register hash s newId d).1) ∧
    (∀ u newId d, ProdNonneg (create_vendor s u newId d).1) ∧
    (∀ u vid d, ProdNonneg (update_vendor s u vid d).1) ∧
    (∀ u vid, ProdNonneg (delete_vendor s u vid).1) ∧
    (∀ u newId d, ProdNonneg (create_customer s u newId d).1) ∧
    (∀ u cid d, ProdNonneg (update_customer s u cid d).1) ∧
    (∀ u cid, ProdNonneg (delete_customer s u cid).1) ∧
    (∀ u newId d, 0 ≤ d.quantity → ProdNonneg (create_product s u newId d).1) ∧
    (∀ u pid d, 0 ≤ d.quantity → ProdNonneg (update_product s u pid d).1) ∧
    (∀ u pid, ProdNonneg (delete_product s u pid).1) ∧
    (∀ u newId d, ProdNonneg (create_sale s u newId d).1) ∧
    (∀ u newId d, ProdNonneg (update_company_details s u newId d).1) := by
  refine ⟨?_, ?_, ?_, ?_, ?_, ?_, ?_, ?_, ?_, ?_, ?_, ?_⟩
  · intro hash newId d
    unfold register
    split
    · exact hs
    · exact hs
  · intro u newId d
    exact hs
  · intro u vid d
    unfold update_vendor
    split
    · exact hs
    · exact hs
  · intro u vid
    unfold delete_vendor
    split
    · exact hs
    · split
      · exact hs
      · exact hs
  · intro u newId d
    exact hs
  · intro u cid d
    unfold update_customer
    split
    · exact hs
    · exact hs
  · intro u cid
    unfold delete_customer
    split
    · exact hs
    · split
      · exact hs
      · exact hs
  · intro u newId d hq
    unfold create_product
    split
    · refine fun p hp => ?_
      rcases List.mem_append.1 hp with hp | hp
      · exact hs p hp
      · rw [List.mem_singleton] at hp
        subst hp
        exact hq
    · exact hs
  · intro u pid d hq
    unfold update_product
    split
    · split
      · refine fun p hp => ?_
        rcases List.mem_map.1 hp with ⟨w, hw, he⟩
        rw [← he]
        split
        · exact hq
        · exact hs w hw
      · exact hs
    · exact hs
  · intro u pid
    unfold delete_product
    split
    · exact hs
    · split
      · exact fun p hp => hs p (deleteFirst_subset hp)
      · exact hs
  · intro u newId d
    unfold create_sale
    cases hc : findCustomer s.customers d.customer_id with
    | none => exact hs
    | some c =>
      cases hrun : applyItems s.products d.items 0 with
      | mk ps r =>
        have hnn := @applyItems_nonneg s.products d.items 0 hs
        rw [hrun] at hnn
        cases r with
        | error e => exact fun p hp => hnn p hp
        | ok t => exact fun p hp => hnn p hp
  · intro u newId d
    unfold update_company_details
    cases require_admin u with
    | error e => exact hs
    | ok v =>
      cases s.company with
      | nil => exact hs
      | cons a l => exact hs

/-- Witness for C2's amended invariant: the base store satisfies the
invariant and a concrete successful sale preserves it. -/
theorem claim_C2_amended_witness :
    ProdNonneg (create_sale baseStore adminUser "s1"
      { customer_id := "c1", items := [item1] }).1 :=
  (claim_C2_amended_nonneg_preserved baseStore (by decide)).2.2.2.2.2.2.2.2.2.2.1
    adminUser "s1" { customer_id := "c1", items := [item1] }

/-- Witness for C10: "selling" -5 Widgets raises Widget stock from 10
to 15. -/
theorem claim_C10_witness :
    ∃ sale,
      create_sale baseStore adminUser "s1" { customer_id := "c1", items := [negItem] } =
        ({ baseStore with
            products := setQuantity baseStore.products "p1" (10 - (-5)),
            sales := baseStore.sales ++ [sale] }, .ok sale) ∧
      (10 : Int) < 10 - (-5) ∧
      findProduct (setQuantity baseStore.products "p1" (10 - (-5))) "p1" =
        some { product1 with quantity := 10 - (-5) } :=
  claim_C10_negative_quantity_increases_stock baseStore adminUser "s1" "c1"
    negItem customer1 product1 (by decide) (by decide) (by decide) (by decide)

/-- C5: Register performs no authorization check on the caller-supplied
role. A registration request with a fresh username and email that
explicitly supplies the admin role succeeds, and the stored and
returned identity carries the admin role — no session or privilege is
required. -/
theorem claim_C5_register_accepts_admin_role (hash : String → String) (s : Store)
    (newId : String) (d : UserCreate)
    (hfresh : ∀ u ∈ s.users, u.user.username ≠ d.username ∧ u.user.email ≠ d.email)
    (hrole : d.role = UserRole.admin) :
    register hash s newId d =
      ({ s with
          users := s.users ++
            [{ user := { id := newId, username := d.username, email := d.email,
                         role := UserRole.admin },
               password := hash d.password }] },
       .ok { id := newId, username := d.username, email := d.email,
             role := UserRole.admin }) := by
  have hany : (s.users.any fun u =>
      u.user.username == d.username || u.user.email == d.email) = false := by
    by_contra hne
    rw [Bool.not_eq_false, List.any_eq_true] at hne
    obtain ⟨u, hu, hor⟩ := hne
    simp only [Bool.or_eq_true] at hor
    rcases hor with h | h
    · exact (hfresh u hu).1 (by simpa using h)
    · exact (hfresh u hu).2 (by simpa using h)
  unfold register
  rw [hany]
  simp [hrole]

/-- Witness for C5: an unauthenticated registration of "alice" with
role admin succeeds against the base store. -/
theorem claim_C5_witness :
    register (fun p => p) baseStore "u9"
        { username := "alice", email := "a@x", password := "pw",
          role := UserRole.admin } =
      ({ baseStore with
          users := baseStore.users ++
            [{ user := { id := "u9", username := "alice", email := "a@x",
                         role := UserRole.admin },
               password := "pw" }] },
       .ok { id := "u9", username := "alice", email := "a@x",
             role := UserRole.admin }) :=
  claim_C5_register_accepts_admin_role (fun p => p) baseStore "u9"
    { username := "alice", email := "a@x", password := "pw",
      role := UserRole.admin }
    (by decide) rfl

/-- C8: Register fails with 400 "Username or email already exists" when
any stored identity has the same username or the same email, whatever
the other fields are, and the store is unchanged (no identity added). -/
theorem claim_C8_register_conflict (hash : String → String) (s : Store)
    (newId : String) (d : UserCreate)
    (hdup : ∃ u ∈ s.users, u.user.username = d.username ∨ u.user.email = d.email) :
    register hash s newId d = (s, .error ⟨400, "Username or email already exists"⟩) := by
  obtain ⟨u, hu, hor⟩ := hdup
  have hany : (s.users.any fun v =>
      v.user.username == d.username || v.user.email == d.email) = true := by
    rw [List.any_eq_true]
    refine ⟨u, hu, ?_⟩
    rcases hor with h | h <;> simp [h]
  unfold register
  rw [hany]
  simp

/-- Witness for C8: re-registering the username "root" (fresh email,
different role) is rejected and the store is unchanged. -/
theorem claim_C8_witness :
    register (fun p => p) baseStore "u9"
        { username := "root", email := "new@x", password := "pw",
          role := UserRole.user } =
      (baseStore, .error ⟨400, "Username or email already exists"⟩) :=
  claim_C8_register_conflict (fun p => p) baseStore "u9"
    { username := "root", email := "new@x", password := "pw",
      role := UserRole.user }
    ⟨{ user := adminUser, password := "h" }, by decide, Or.inl (by decide)⟩

/-- C7: login/authenticate round trip. For a stored identity found by
username whose password verifies, login succeeds with a token whose
subject is that username and whose expiry is the fixed 30-minute TTL;
authenticating with that token strictly before the expiry returns the
same identity, and at or after the expiry fails with 401. -/
theorem claim_C7_login_token_roundtrip (check : String → String → Bool)
    (s : Store) (now : Nat) (d : UserLogin) (su : StoredUser)
    (hfind : findUserByName s.users d.username = some su)
    (hpw : check d.password su.password = true) :
    ∃ tok, login check s now d = .ok (tok, su.user) ∧
      tok.sub = some su.user.username ∧
      su.user.username = d.username ∧
      tok.exp = now + ACCESS_TOKEN_EXPIRE_MINUTES * 60 ∧
      (∀ t, t < tok.exp → get_current_user s t tok = .ok su.user) ∧
      (∀ t, tok.exp ≤ t → get_current_user s t tok = .error ⟨401, "Invalid token"⟩) := by
  have huser : su.user.username = d.username := by
    have hpred := List.find?_some hfind
    simpa using hpred
  refine ⟨create_access_token now su.user.username, ?_, rfl, huser, rfl, ?_, ?_⟩
  · unfold login
    rw [hfind]
    simp [hpw]
  · intro t ht
    unfold get_current_user jwtDecode
    rw [if_neg (by simpa [create_access_token] using Nat.not_le.2 ht)]
    simp only [create_access_token]
    rw [huser, hfind]
  · intro t ht
    unfold get_current_user jwtDecode
    rw [if_pos (by simpa [create_access_token] using ht)]

/-- Witness for C7: logging in as "root" with the matching credential
issues a token valid before second 1800 and rejected from 1800 on. -/
theorem claim_C7_witness :
    ∃ tok, login (fun p h => p == h) baseStore 0
        { username := "root", password := "h" } = .ok (tok, adminUser) ∧
      tok.sub = some adminUser.username ∧
      adminUser.username = "root" ∧
      tok.exp = 0 + ACCESS_TOKEN_EXPIRE_MINUTES * 60 ∧
      (∀ t, t < tok.exp → get_current_user baseStore t tok = .ok adminUser) ∧
      (∀ t, tok.exp ≤ t →
        get_current_user baseStore t tok = .error ⟨401, "Invalid token"⟩) :=
  claim_C7_login_token_roundtrip (fun p h => p == h) baseStore 0
    { username := "root", password := "h" } { user := adminUser, password := "h" }
    (by decide) (by decide)

/-- Every error `create_sale` can produce carries status 400 (missing
customer, missing product, insufficient stock) — in particular never
403. -/
theorem create_sale_error_code {s : Store} {u : User} {newId : String}
    {d : SaleCreate} {e : Err}
    (h : (create_sale s u newId d).2 = .error e) : e.code = 400 := by
  unfold create_sale at h
  cases hc : findCustomer s.customers d.customer_id with
  | none =>
    rw [hc] at h
    simp only [Except.error.injEq] at h
    rw [← h]
  | some c =>
    rw [hc] at h
    cases hrun : applyItems s.products d.items 0 with
    | mk ps r =>
      rw [hrun] at h
      cases r with
      | error e' =>
        simp only [Except.error.injEq] at h
        rw [← h]
        exact applyItems_error_code (by rw [hrun])
      | ok total => simp at h

/-- C6: the elevated-role gate. Non-admin identities are rejected with
403 "Admin access required" by exactly the four gated operations
(delete vendor, delete customer, delete product, update company
profile), with the store unchanged; admin identities pass the gate; and
no other mutating operation can ever return a 403 error, whatever the
caller's role. -/
theorem claim_C6_admin_gate (s : Store) (u : User) :
    (u.role ≠ UserRole.admin →
      (∀ vid, delete_vendor s u vid = (s, .error ⟨403, "Admin access required"⟩)) ∧
      (∀ cid, delete_customer s u cid = (s, .error ⟨403, "Admin access required"⟩)) ∧
      (∀ pid, delete_product s u pid = (s, .error ⟨403, "Admin access required"⟩)) ∧
      (∀ newId dc, update_company_details s u newId dc =
        (s, .error ⟨403, "Admin access required"⟩))) ∧
    (u.role = UserRole.admin → require_admin u = .ok u) ∧
    (∀ newId dv e, (create_vendor s u newId dv).2 = .error e → e.code ≠ 403) ∧
    (∀ vid dv e, (update_vendor s u vid dv).2 = .error e → e.code ≠ 403) ∧
    (∀ newId dc e, (create_customer s u newId dc).2 = .error e → e.code ≠ 403) ∧
    (∀ cid dc e, (update_customer s u cid dc).2 = .error e → e.code ≠ 403) ∧
    (∀ newId dp e, (create_product s u newId dp).2 = .error e → e.code ≠ 403) ∧
    (∀ pid dp e, (update_product s u pid dp).2 = .error e → e.code ≠ 403) ∧
    (∀ newId ds e, (create_sale s u newId ds).2 = .error e → e.code ≠ 403) ∧
    (∀ hash newId du e, (register hash s newId du).2 = .error e → e.code ≠ 403) := by
  have hgate : u.role ≠ UserRole.admin →
      require_admin u = .error ⟨403, "Admin access required"⟩ := by
    intro h
    unfold require_admin
    rw [if_pos h]
  refine ⟨?_, ?_, ?_, ?_, ?_, ?_, ?_, ?_, ?_, ?_⟩
  · intro h
    refine ⟨fun vid => ?_, fun cid => ?_, fun pid => ?_, fun newId dc => ?_⟩
    · unfold delete_vendor
      rw [hgate h]
    · unfold delete_customer
      rw [hgate h]
    · unfold delete_product
      rw [hgate h]
    · unfold update_company_details
      rw [hgate h]
  · intro h
    unfold require_admin
    rw [if_neg (by simp [h])]
  · intro newId dv e h
    simp [create_vendor] at h
  · intro vid dv e h
    unfold update_vendor at h
    split at h
    · simp at h
    · simp only [Except.error.injEq] at h
      rw [← h]
      decide
  · intro newId dc e h
    simp [create_customer] at h
  · intro cid dc e h
    unfold update_customer at h
    split at h
    · simp at h
    · simp only [Except.error.injEq] at h
      rw [← h]
      decide
  · intro newId dp e h
    unfold create_product at h
    split at h
    · simp at h
    · simp only [Except.error.injEq] at h
      rw [← h]
      decide
  · intro pid dp e h
    unfold update_product at h
    split at h
    · split at h
      · simp at h
      · simp only [Except.error.injEq] at h
        rw [← h]
        decide
    · simp only [Except.error.injEq] at h
      rw [← h]
      decide
  · intro newId ds e h
    have := create_sale_error_code h
    omega
  · intro hash newId du e h
    unfold register at h
    split at h
    · simp only [Except.error.injEq] at h
      rw [← h]
      decide
    · simp at h

/-- Witness for C6: the non-admin user is rejected by all four gated
operations, and the admin user passes the gate. -/
theorem claim_C6_witness :
    ((∀ vid, delete_vendor baseStore plainUser vid =
        (baseStore, .error ⟨403, "Admin access required"⟩)) ∧
      (∀ cid, delete_customer baseStore plainUser cid =
        (baseStore, .error ⟨403, "Admin access required"⟩)) ∧
      (∀ pid, delete_product baseStore plainUser pid =
        (baseStore, .error ⟨403, "Admin access required"⟩)) ∧
      (∀ newId dc, update_company_details baseStore plainUser newId dc =
        (baseStore, .error ⟨403, "Admin access required"⟩))) ∧
    require_admin adminUser = .ok adminUser :=
  ⟨(claim_C6_admin_gate baseStore plainUser).1 (by decide),
   (claim_C6_admin_gate baseStore adminUser).2.1 rfl⟩

end Inventory
